import Mathlib

/-!
Shallow embedding of the conversation/message state layer of the
AI-powered adaptive workplace learning client:
the API client (`src/services/api.ts`), the chat session hook and the
conversation registry hook (`src/unnamed/part_003`), and the context
extraction helper (`src/App.tsx`).

Asynchronous operations are split at their await points: the synchronous
prefix of an operation is one state-transition function, and the
continuation that runs when the awaited network call settles is another,
parameterised by the call's outcome (`Except ApiError _`).  Wall-clock
reads (`Date.now()`, `new Date()`) are passed in as explicit tick
parameters, and `Date` values are a free datatype over their two
construction modes in this code base (parsed from a string / current
instant).
-/

/-- Classified error thrown by the API client (`ApiError` in
`src/services/api.ts`).  The `details` payload (TS type `unknown`, never
read by any state logic) is omitted. -/
structure ApiError where
  message : String
  code : String
deriving DecidableEq, Repr

/-- A decoded JSON error body: both fields may be missing
(`errorData.message`, `errorData.code` may be `undefined`). -/
structure ErrorData where
  message : Option String
  code : Option String
deriving DecidableEq, Repr

/-- JavaScript `a || b` on an optionally-present string: the default wins
when the value is absent or empty (both are falsy). -/
def jsOrString : Option String → String → String
  | some s, d => if s = "" then d else s
  | none, d => d

/-- Outcome of one `fetch` + body-decode round trip, as observed by
`request` in `src/services/api.ts`:
- `networkFailure`: `fetch` itself rejected (DNS failure, connection refused, abort);
- `httpError status statusText errorBody`: a response with `ok = false`;
  `errorBody = none` models `response.json()` rejecting, which the source
  turns into `{}` via `.catch(() => ({}))`;
- `success body`: a response with `ok = true`; `body = none` models
  `response.json()` rejecting on the success path. -/
inductive FetchResult (α : Type) where
  | networkFailure
  | httpError (status : Nat) (statusText : String) (errorBody : Option ErrorData)
  | success (body : Option α)

/-- The fixed user-facing message of a network-classified failure. -/
def networkErrorMessage : String :=
  "Failed to connect to the AI service. Please check your connection."

/-- The status-derived message used when a non-ok response has no
decodable `message` field: the interpolation
of status and status text in the source. -/
def httpErrorMessage (status : Nat) (statusText : String) : String :=
  "HTTP " ++ toString status ++ ": " ++ statusText

/-- `ApiService.request` from `src/services/api.ts`, as a function of the
transfer outcome.  A non-ok response throws an `ApiError` built from the
(possibly empty) decoded error body with `||` fallbacks; that `ApiError`
passes through the outer catch unchanged (`instanceof` test), while any
other failure (fetch rejection, success-body parse failure) is wrapped
into the fixed network-classified `ApiError`. -/
def request {α : Type} : FetchResult α → Except ApiError α
  | .networkFailure => .error ⟨networkErrorMessage, "NETWORK_ERROR"⟩
  | .httpError status statusText errorBody =>
      let errorData := errorBody.getD ⟨none, none⟩
      .error ⟨jsOrString errorData.message (httpErrorMessage status statusText),
              jsOrString errorData.code "HTTP_ERROR"⟩
  | .success none => .error ⟨networkErrorMessage, "NETWORK_ERROR"⟩
  | .success (some a) => .ok a

/-- A point in time, by construction mode: `ofString s` is
`new Date(s)` applied to a wire timestamp, `now tick` is `new Date()` /
`Date.now()` evaluated at the given wall-clock tick. -/
inductive Date where
  | ofString (s : String)
  | now (tick : Nat)
deriving DecidableEq, Repr

/-- Message metadata (`metadata` in `src/types/api.ts`): model name,
token count, processing time. -/
structure Metadata where
  model : String
  tokens : Nat
  processingTime : Nat
deriving DecidableEq, Repr

/-- A chat message as held in session state (`ChatMessage` in
`src/types/api.ts`, with `timestamp: Date`). -/
structure ChatMessage where
  id : String
  content : String
  sender : String
  timestamp : Date
  category : Option String
  metadata : Option Metadata
deriving DecidableEq, Repr

/-- A chat message as it arrives on the wire from
`GET /api/conversations/:id/messages`: the timestamp is a string and may
be absent. -/
structure WireChatMessage where
  id : String
  content : String
  sender : String
  timestamp : Option String
  category : Option String
  metadata : Option Metadata
deriving DecidableEq, Repr

/-- The timestamp normalisation `getConversation` applies to each raw
message: `m.timestamp ? new Date(m.timestamp) : new Date()`.  An absent
timestamp — and an empty string, which is falsy — yields the current
instant; all other fields are spread through unchanged. -/
def normalizeMessage (tick : Nat) (m : WireChatMessage) : ChatMessage :=
  { id := m.id, content := m.content, sender := m.sender,
    timestamp :=
      match m.timestamp with
      | some s => if s = "" then Date.now tick else Date.ofString s
      | none => Date.now tick,
    category := m.category, metadata := m.metadata }

/-- `ApiService.getConversation`: fetch the raw message list, then map
the timestamp normalisation over it. -/
def getConversation (tick : Nat) (fetched : FetchResult (List WireChatMessage)) :
    Except ApiError (List ChatMessage) :=
  (request fetched).map (List.map (normalizeMessage tick))

/-- The context bundle built by `extractContext` in `src/App.tsx`; each
field is present exactly when the corresponding extraction fired. -/
structure Context where
  language : Option String
  codeSnippet : Option String
  errorMessage : Option String
deriving DecidableEq, Repr

/-- ASCII word character, JavaScript regex `\w`. -/
def isWordChar (c : Char) : Bool :=
  c.isAlphanum || c = '_'

/-- True when the character list starts with a triple-backtick fence. -/
def startsWithFence : List Char → Bool
  | '`' :: '`' :: '`' :: _ => true
  | _ => false

/-- The characters before the first triple-backtick fence in the list,
or `none` when no fence occurs: this is the lazy body match of the
code-block regex, which stops at the earliest closing fence. -/
def beforeFence : List Char → Option (List Char)
  | [] => none
  | c :: rest =>
      if startsWithFence (c :: rest) then some []
      else (beforeFence rest).map (c :: ·)

/-- Try the code-block regex at one start position.  After the opening
fence, the greedy optional word run must be followed by a newline (a
shorter backtracked run would leave a word character where the newline is
required, so the maximal run is the only candidate), then the lazy body
runs to the earliest closing fence.  Returns the captured language tag
(absent when the run is empty) and the body. -/
def matchFenceAt : List Char → Option (Option (List Char) × List Char)
  | '`' :: '`' :: '`' :: rest =>
      let tag := rest.takeWhile isWordChar
      match rest.dropWhile isWordChar with
      | '\n' :: body =>
          match beforeFence body with
          | some snippet => some ((if tag.isEmpty then none else some tag), snippet)
          | none => none
      | _ => none
  | _ => none

/-- Left-to-right scan of the code-block regex over all start positions:
the first position where `matchFenceAt` succeeds wins. -/
def findCodeMatch : List Char → Option (Option (List Char) × List Char)
  | [] => none
  | c :: rest =>
      match matchFenceAt (c :: rest) with
      | some r => some r
      | none => findCodeMatch rest

/-- The fixed failure-indicating keywords of the error regex in
`extractContext`, in their alternation order. -/
def failureKeywords : List String :=
  ["error", "exception", "failed", "undefined", "null", "cannot"]

/-- Case-insensitive match of the needle at the start of the haystack. -/
def matchesAtCI : List Char → List Char → Bool
  | [], _ => true
  | _ :: _, [] => false
  | a :: as, b :: bs => (a.toLower == b.toLower) && matchesAtCI as bs

/-- Case-insensitive search for the needle anywhere in the haystack,
scanning start positions left to right. -/
def searchCI (needle : List Char) : List Char → Bool
  | [] => needle.isEmpty
  | c :: rest => matchesAtCI needle (c :: rest) || searchCI needle rest

/-- The test of the error regex
(alternation of the failure keywords, case-insensitive flag) against a
message. -/
def testFailureRegex (msg : String) : Bool :=
  failureKeywords.any (fun k => searchCI k.data msg.data)

/-- `extractContext` from `src/App.tsx`: populate `language` and
`codeSnippet` when the code-block regex matches (`codeMatch[1] ||
'javascript'` defaults an absent language tag), populate `errorMessage`
with the whole message when the error regex matches and the category is
`bug-fix`, and return the object only when at least one key was set
(`Object.keys(context).length > 0 ? context : undefined`). -/
def extractContext (message : String) (category : String) : Option Context :=
  let code := findCodeMatch message.data
  let language : Option String :=
    code.map (fun r =>
      match r.1 with
      | some tag => String.mk tag
      | none => "javascript")
  let codeSnippet : Option String := code.map (fun r => String.mk r.2)
  let errorMessage : Option String :=
    if testFailureRegex message && category == "bug-fix" then some message else none
  if language.isSome || codeSnippet.isSome || errorMessage.isSome then
    some { language := language, codeSnippet := codeSnippet, errorMessage := errorMessage }
  else
    none

/-- A chat request body (`ChatRequest` in `src/types/api.ts`). -/
structure ChatRequest where
  message : String
  conversationId : String
  category : String
  context : Option Context
deriving DecidableEq, Repr

/-- A chat response body (`ChatResponse` in `src/types/api.ts`); the
fields the session state machine reads. -/
structure ChatResponse where
  id : String
  content : String
  timestamp : String
  metadata : Option Metadata
deriving DecidableEq, Repr

/-- JavaScript string trim on the whitespace characters Lean's
`Char.isWhitespace` recognises (space, tab, newline, carriage return);
models `String.prototype.trim` as used by the guards
`!content.trim()` and `!query.trim()`. -/
def jsTrim (s : String) : String :=
  String.mk (((s.data.dropWhile Char.isWhitespace).reverse.dropWhile Char.isWhitespace).reverse)

/-- State of one chat session (`useChat` in `src/unnamed/part_003`):
message sequence, loading flag, derived connection flag, and the
identity of the `AbortController` currently held by
`abortControllerRef` (`none` when the ref is null).  The controller's
signal is never attached to the outgoing request in the source, so
aborting it has no further observable effect here. -/
structure ChatSessionState where
  messages : List ChatMessage
  isLoading : Bool
  isConnected : Bool
  abortRef : Option Nat
deriving DecidableEq, Repr

/-- The initial state of `useChat`: empty sequence, not loading,
connected, no controller. -/
def initialChatState : ChatSessionState :=
  { messages := [], isLoading := false, isConnected := true, abortRef := none }

/-- The AI message `sendMessage` builds from a successful response. -/
def aiMessageOfResponse (response : ChatResponse) (category : String) : ChatMessage :=
  { id := response.id, content := response.content, sender := "ai",
    timestamp := Date.ofString response.timestamp,
    category := some category, metadata := response.metadata }

/-- The synthesized AI-authored error message `sendMessage` appends on a
classified failure. -/
def errorChatMessage (e : ApiError) (tick : Nat) : ChatMessage :=
  { id := "error-" ++ toString tick,
    content := "Sorry, I encountered an error: " ++ e.message ++ ". Please try again.",
    sender := "ai", timestamp := Date.now tick,
    category := some "general", metadata := none }

/-- The synchronous prefix of `sendMessage`, up to its await point.
Guard: `if (!content.trim() || isLoading) return;` — a no-op returning
the state unchanged and no request.  Otherwise it appends the optimistic
user message (identity prefixed `user-` with the current tick), sets the
loading flag, aborts and replaces the previous controller, and issues
the request.  `tick` is `Date.now()`, `token` identifies the fresh
`AbortController`. -/
def sendMessage_start (s : ChatSessionState) (conversationId content category : String)
    (context : Option Context) (tick token : Nat) :
    ChatSessionState × Option ChatRequest :=
  if jsTrim content = "" ∨ s.isLoading = true then (s, none)
  else
    let userMessage : ChatMessage :=
      { id := "user-" ++ toString tick, content := content, sender := "user",
        timestamp := Date.now tick, category := some category, metadata := none }
    ({ s with messages := s.messages ++ [userMessage], isLoading := true,
              abortRef := some token },
     some { message := content, conversationId := conversationId,
            category := category, context := context })

/-- The continuation of `sendMessage` once the awaited API call settles.
On success it appends the AI message and marks the connection healthy;
on a classified failure it sets the connection flag from the code test
`error.code !== 'NETWORK_ERROR'` and appends the synthesized error
message.  The `finally` block then clears the loading flag and the
controller ref on every path.  The source never compares the settled
request against the current `abortControllerRef` before applying the
result. -/
def sendMessage_resolve (s : ChatSessionState) (category : String)
    (result : Except ApiError ChatResponse) (tick : Nat) : ChatSessionState :=
  match result with
  | .ok response =>
      { s with messages := s.messages ++ [aiMessageOfResponse response category],
               isConnected := true, isLoading := false, abortRef := none }
  | .error e =>
      { s with isConnected := e.code != "NETWORK_ERROR",
               messages := s.messages ++ [errorChatMessage e tick],
               isLoading := false, abortRef := none }

/-- The continuation of `loadConversation` once `getConversation`
settles: on success replace the sequence wholesale and mark connected;
on a classified failure set the connection flag from
`error.code !== 'NETWORK_ERROR'` and leave the sequence alone.  The
`finally` block clears the loading flag. -/
def loadConversation_resolve (s : ChatSessionState)
    (result : Except ApiError (List ChatMessage)) : ChatSessionState :=
  match result with
  | .ok msgs =>
      { s with messages := msgs, isConnected := true, isLoading := false }
  | .error e =>
      { s with isConnected := e.code != "NETWORK_ERROR", isLoading := false }

/-- `clearMessages`: empty the sequence, touch nothing else. -/
def clearMessages (s : ChatSessionState) : ChatSessionState :=
  { s with messages := [] }

/-- A conversation summary (`ConversationSummary` in
`src/types/api.ts`). -/
structure ConversationSummary where
  id : String
  title : String
  lastMessage : String
  category : String
  messageCount : Nat
  createdAt : String
  updatedAt : String
deriving DecidableEq, Repr

/-- State of the conversation registry (`useConversations` in
`src/unnamed/part_003`): cached summary list, loading flag, error
string. -/
structure RegistryState where
  conversations : List ConversationSummary
  isLoading : Bool
  error : Option String
deriving DecidableEq, Repr

/-- `loadConversations` as a function of the API outcome: on success the
cache is replaced and the error cleared; on a classified failure the
error string is set and the cache kept; the loading flag ends false on
both paths. -/
def loadConversations (s : RegistryState)
    (result : Except ApiError (List ConversationSummary)) : RegistryState :=
  match result with
  | .ok data => { s with conversations := data, error := none, isLoading := false }
  | .error e => { s with error := some e.message, isLoading := false }

/-- `createConversation` as a function of the API outcome: on success the
new summary is prepended to the cache and returned; on a classified
failure the error string is set and the error re-thrown
(`throw err`). -/
def createConversation (s : RegistryState)
    (result : Except ApiError ConversationSummary) :
    RegistryState × Except ApiError ConversationSummary :=
  match result with
  | .ok newConversation =>
      ({ s with conversations := newConversation :: s.conversations }, .ok newConversation)
  | .error e => ({ s with error := some e.message }, .error e)

/-- `deleteConversation id` as a function of the API outcome: on success
the cache is filtered by `conv.id !== id`; on a classified failure only
the error string is set. -/
def deleteConversation (s : RegistryState) (id : String)
    (result : Except ApiError Unit) : RegistryState :=
  match result with
  | .ok _ =>
      { s with conversations := s.conversations.filter (fun conv => conv.id != id) }
  | .error e => { s with error := some e.message }

/-- `searchConversations query` as a function of the API outcome of the
call it makes: with a blank query it delegates to `loadConversations`
(whose outcome is then that of the full-list fetch); otherwise on
success the cache is replaced wholesale by the search results and on a
classified failure the error string is set, the loading flag ending
false either way. -/
def searchConversations (s : RegistryState) (query : String)
    (result : Except ApiError (List ConversationSummary)) : RegistryState :=
  if jsTrim query = "" then loadConversations s result
  else
    match result with
    | .ok results => { s with conversations := results, isLoading := false }
    | .error e => { s with error := some e.message, isLoading := false }

/-- Spec-level reading of the error regex from section 4.3: the message
contains one of the failure keywords, case-insensitively (the
lower-cased keyword occurs as a contiguous substring of the lower-cased
message). -/
def HasFailureKeyword (msg : String) : Prop :=
  ∃ k ∈ failureKeywords, k.data.map Char.toLower <:+: msg.data.map Char.toLower

/-- First send of the stale-response scenario: a valid send from the
initial state, leaving the session loading with request 0 in flight. -/
def staleScenarioFirstSend : ChatSessionState × Option ChatRequest :=
  sendMessage_start initialChatState "conv-1" "first question" "general" none 100 0

/-- Second send of the stale-response scenario, issued while the first
request is still in flight. -/
def staleScenarioSecondSend : ChatSessionState × Option ChatRequest :=
  sendMessage_start staleScenarioFirstSend.1 "conv-1" "second question" "general" none 101 1

/-- The response with which the first request eventually resolves. -/
def staleScenarioResponse : ChatResponse :=
  ⟨"ai-1", "answer to the first question", "2024-01-01T00:00:00Z", none⟩

/-- Session state after the first request's response arrives, the second
send having been issued in between. -/
def staleScenarioFinal : ChatSessionState :=
  sendMessage_resolve staleScenarioSecondSend.1 "general" (Except.ok staleScenarioResponse) 102

theorem matchesAtCI_iff (n : List Char) : ∀ h : List Char,
    matchesAtCI n h = true ↔ n.map Char.toLower <+: h.map Char.toLower := by
  induction n with
  | nil => intro h; simp [matchesAtCI]
  | cons a as ih =>
    intro h
    cases h with
    | nil => simp [matchesAtCI, List.prefix_nil]
    | cons b bs => simp [matchesAtCI, List.cons_prefix_cons, ih]

theorem searchCI_iff (n : List Char) : ∀ h : List Char,
    searchCI n h = true ↔ n.map Char.toLower <:+: h.map Char.toLower := by
  intro h
  induction h with
  | nil => simp [searchCI, List.isEmpty_iff]
  | cons c rest ih => simp [searchCI, matchesAtCI_iff, ih, List.infix_cons_iff]

theorem testFailureRegex_iff (msg : String) :
    testFailureRegex msg = true ↔ HasFailureKeyword msg := by
  simp [testFailureRegex, HasFailureKeyword, List.any_eq_true, searchCI_iff]

theorem networkErrorMessage_ne_httpErrorMessage (status : Nat) (statusText : String) :
    networkErrorMessage ≠ httpErrorMessage status statusText := by
  intro h
  unfold networkErrorMessage httpErrorMessage at h
  generalize toString status = t at h
  obtain ⟨l1⟩ := t
  obtain ⟨l2⟩ := statusText
  have hd : some 'F' = some 'H' := congrArg (fun s => s.data.head?) h
  exact absurd hd (by decide)

/-- C1 fails on the code: with the first request in flight, a second
send is rejected by the loading guard (it issues no request at all), and
when the first request's response then arrives it IS appended to the
message sequence — the source compares nothing against the in-flight
controller before applying a result, so no stale result is ever
discarded. -/
theorem c1_counterexample_staleResponseApplied :
    staleScenarioFirstSend.1.isLoading = true ∧
    staleScenarioSecondSend.2 = none ∧
    staleScenarioSecondSend.1 = staleScenarioFirstSend.1 ∧
    aiMessageOfResponse staleScenarioResponse "general" ∈ staleScenarioFinal.messages := by
  decide

/-- C1 (amended): when a second send is issued before a first send's
request resolves, the second send is the one that has no effect — it is
a no-op returning the state unchanged and issuing no request — while the
first request's response, when it arrives, is appended to the message
sequence as usual. -/
theorem c1_amended_secondSendNoop_firstResultApplied
    (s : ChatSessionState) (cid content category : String) (ctx : Option Context)
    (tick token : Nat) (cid2 content2 category2 : String) (ctx2 : Option Context)
    (tick2 token2 : Nat) (response : ChatResponse) (tick3 : Nat)
    (hcontent : jsTrim content ≠ "") (hidle : s.isLoading = false) :
    sendMessage_start (sendMessage_start s cid content category ctx tick token).1
        cid2 content2 category2 ctx2 tick2 token2 =
      ((sendMessage_start s cid content category ctx tick token).1, none) ∧
    (sendMessage_resolve (sendMessage_start s cid content category ctx tick token).1
        category (Except.ok response) tick3).messages =
      (sendMessage_start s cid content category ctx tick token).1.messages ++
        [aiMessageOfResponse response category] := by
  have hguard : ¬(jsTrim content = "" ∨ s.isLoading = true) := by
    simp [hcontent, hidle]
  constructor
  · simp [sendMessage_start, hguard]
  · simp [sendMessage_resolve]

theorem c1_amended_witness :
    jsTrim "first question" ≠ "" ∧ initialChatState.isLoading = false ∧
    (sendMessage_start
        (sendMessage_start initialChatState "conv-1" "first question" "general" none 100 0).1
        "conv-1" "second question" "general" none 101 1 =
      ((sendMessage_start initialChatState "conv-1" "first question" "general" none 100 0).1,
        none) ∧
    (sendMessage_resolve
        (sendMessage_start initialChatState "conv-1" "first question" "general" none 100 0).1
        "general" (Except.ok ⟨"ai-1", "answer", "2024-01-01T00:00:00Z", none⟩) 102).messages =
      (sendMessage_start initialChatState "conv-1" "first question" "general" none 100 0).1.messages
        ++ [aiMessageOfResponse ⟨"ai-1", "answer", "2024-01-01T00:00:00Z", none⟩ "general"]) :=
  ⟨by decide, rfl,
   c1_amended_secondSendNoop_firstResultApplied initialChatState "conv-1" "first question"
     "general" none 100 0 "conv-1" "second question" "general" none 101 1
     ⟨"ai-1", "answer", "2024-01-01T00:00:00Z", none⟩ 102 (by decide) rfl⟩

/-- C2: after a classified failure of a send or a load, the session's
connection flag is false exactly when the error's code is
NETWORK_ERROR, and true for every other code. -/
theorem c2_connectionFlag_iff_networkError (s : ChatSessionState) (category : String)
    (e : ApiError) (tick : Nat) :
    ((sendMessage_resolve s category (Except.error e) tick).isConnected = false ↔
      e.code = "NETWORK_ERROR") ∧
    ((sendMessage_resolve s category (Except.error e) tick).isConnected = true ↔
      e.code ≠ "NETWORK_ERROR") ∧
    ((loadConversation_resolve s (Except.error e)).isConnected = false ↔
      e.code = "NETWORK_ERROR") ∧
    ((loadConversation_resolve s (Except.error e)).isConnected = true ↔
      e.code ≠ "NETWORK_ERROR") := by
  simp [sendMessage_resolve, loadConversation_resolve, bne_eq_false_iff_eq, bne_iff_ne]

/-- C3: context extraction returns language python and snippet for the
fenced input, the full text as error message for the bug-fix failure
text, and no context object at all for plain text; in general the error
message field is populated (with the full message) exactly when the
category is bug-fix and the text contains a failure keyword
case-insensitively. -/
theorem c3_extractContext_spec :
    extractContext "```python\nx=1\n```" "general" =
      some { language := some "python", codeSnippet := some "x=1\n", errorMessage := none } ∧
    extractContext "it failed with undefined" "bug-fix" =
      some { language := none, codeSnippet := none,
             errorMessage := some "it failed with undefined" } ∧
    extractContext "hello" "general" = none ∧
    (∀ msg category : String,
      (extractContext msg category).bind Context.errorMessage = some msg ↔
        (category = "bug-fix" ∧ HasFailureKeyword msg)) := by
  refine ⟨by decide, by decide, by decide, ?_⟩
  intro msg category
  rw [← testFailureRegex_iff]
  rcases Bool.eq_false_or_eq_true (testFailureRegex msg) with ht | ht <;>
    by_cases hc : category = "bug-fix" <;>
      cases hcm : findCodeMatch msg.data <;>
        simp [extractContext, ht, hc, hcm]

/-- C4: every failure of the API client's request is a classified error:
a non-ok response with a decodable structured body fails with the
backend-supplied message and code; a non-ok response without one fails
with the status-derived message and the fixed code HTTP_ERROR; a
transport failure or a success-body parse failure fails with the fixed
code NETWORK_ERROR and a fixed generic message distinct from every
HTTP-error message; and every error code is NETWORK_ERROR, HTTP_ERROR,
or backend-supplied. -/
theorem c4_request_error_classification (α : Type) :
    (∀ (status : Nat) (statusText m c : String), m ≠ "" → c ≠ "" →
      request (α := α) (FetchResult.httpError status statusText (some ⟨some m, some c⟩)) =
        Except.error ⟨m, c⟩) ∧
    (∀ (status : Nat) (statusText : String),
      request (α := α) (FetchResult.httpError status statusText none) =
        Except.error ⟨httpErrorMessage status statusText, "HTTP_ERROR"⟩) ∧
    request (α := α) FetchResult.networkFailure =
      Except.error ⟨networkErrorMessage, "NETWORK_ERROR"⟩ ∧
    request (α := α) (FetchResult.success none) =
      Except.error ⟨networkErrorMessage, "NETWORK_ERROR"⟩ ∧
    (∀ (status : Nat) (statusText : String),
      networkErrorMessage ≠ httpErrorMessage status statusText) ∧
    (∀ (r : FetchResult α) (e : ApiError), request r = Except.error e →
      e.code = "NETWORK_ERROR" ∨ e.code = "HTTP_ERROR" ∨
        (∃ status statusText d, r = FetchResult.httpError status statusText (some d) ∧
          d.code = some e.code)) := by
  refine ⟨?_, ?_, rfl, rfl, networkErrorMessage_ne_httpErrorMessage, ?_⟩
  · intro status statusText m c hm hc
    simp [request, jsOrString, hm, hc]
  · intro status statusText
    simp [request, jsOrString]
  · intro r e h
    cases r with
    | networkFailure =>
      left
      cases h
      rfl
    | httpError status statusText errorBody =>
      cases errorBody with
      | none =>
        right; left
        cases h
        rfl
      | some d =>
        rcases d with ⟨dm, dc⟩
        cases dc with
        | none =>
          right; left
          cases h
          rfl
        | some c =>
          by_cases hce : c = ""
          · right; left
            cases h
            simp [jsOrString, hce]
          · right; right
            refine ⟨status, statusText, ⟨dm, some c⟩, rfl, ?_⟩
            cases h
            simp [jsOrString, hce]
    | success body =>
      cases body with
      | none =>
        left
        cases h
        rfl
      | some a => exact absurd h (by simp [request])

theorem c4_witness :
    request (α := Unit)
        (FetchResult.httpError 500 "Internal Server Error" (some ⟨some "boom", some "BACKEND"⟩)) =
      Except.error ⟨"boom", "BACKEND"⟩ :=
  (c4_request_error_classification Unit).1 500 "Internal Server Error" "boom" "BACKEND"
    (by decide) (by decide)

/-- C5: a send whose content is empty or whitespace-only, or a send
invoked while one is already in flight, is a no-op: the state is
returned unchanged and no request is issued. -/
theorem c5_send_guard_noop (s : ChatSessionState) (cid content category : String)
    (ctx : Option Context) (tick token : Nat)
    (h : jsTrim content = "" ∨ s.isLoading = true) :
    sendMessage_start s cid content category ctx tick token = (s, none) := by
  simp only [sendMessage_start]
  exact if_pos h

theorem c5_witness :
    (jsTrim "   " = "" ∨ initialChatState.isLoading = true) ∧
    sendMessage_start initialChatState "conv" "   " "general" none 0 0 =
      (initialChatState, none) :=
  ⟨Or.inl (by decide),
   c5_send_guard_noop initialChatState "conv" "   " "general" none 0 0 (Or.inl (by decide))⟩

/-- C6: a successful create prepends the returned summary to the front
of the cache, with every previously cached entry following in order, and
returns it; a failed create sets the error string to the classified
message, leaves the cache alone, and re-raises the error. -/
theorem c6_create_prepends (s : RegistryState) (c : ConversationSummary) (e : ApiError) :
    (createConversation s (Except.ok c)).1.conversations.head? = some c ∧
    (createConversation s (Except.ok c)).1.conversations.tail = s.conversations ∧
    (createConversation s (Except.ok c)).2 = Except.ok c ∧
    (createConversation s (Except.error e)).1.error = some e.message ∧
    (createConversation s (Except.error e)).1.conversations = s.conversations ∧
    (createConversation s (Except.error e)).2 = Except.error e := by
  simp [createConversation]

/-- C7: a search with a blank query is the same operation as a full
reload, and a search with a non-blank query replaces the cache wholesale
with the results. -/
theorem c7_search_blank_is_reload (s : RegistryState) (query : String)
    (result : Except ApiError (List ConversationSummary))
    (results : List ConversationSummary) :
    (jsTrim query = "" → searchConversations s query result = loadConversations s result) ∧
    (jsTrim query ≠ "" →
      (searchConversations s query (Except.ok results)).conversations = results) := by
  constructor
  · intro h
    simp [searchConversations, h]
  · intro h
    simp [searchConversations, h]

theorem c7_witness :
    searchConversations ⟨[], false, none⟩ "  " (Except.ok []) =
      loadConversations ⟨[], false, none⟩ (Except.ok []) ∧
    (searchConversations ⟨[], false, none⟩ "abc"
        (Except.ok [⟨"1", "t", "m", "general", 0, "c", "u"⟩])).conversations =
      [⟨"1", "t", "m", "general", 0, "c", "u"⟩] :=
  ⟨(c7_search_blank_is_reload ⟨[], false, none⟩ "  " (Except.ok []) []).1 (by decide),
   (c7_search_blank_is_reload ⟨[], false, none⟩ "abc" (Except.ok [])
      [⟨"1", "t", "m", "general", 0, "c", "u"⟩]).2 (by decide)⟩

/-- C8: a successful delete removes exactly the cached entries whose
identity equals the given id, keeping all other entries in order (the
result is a sublist of the old cache); a failed delete leaves the cache
unchanged and sets the error string. -/
theorem c8_delete_filter (s : RegistryState) (id : String) (e : ApiError) :
    (∀ c : ConversationSummary,
      c ∈ (deleteConversation s id (Except.ok ())).conversations ↔
        (c ∈ s.conversations ∧ c.id ≠ id)) ∧
    (deleteConversation s id (Except.ok ())).conversations.Sublist s.conversations ∧
    (deleteConversation s id (Except.error e)).conversations = s.conversations ∧
    (deleteConversation s id (Except.error e)).error = some e.message := by
  refine ⟨?_, ?_, ?_, ?_⟩
  · intro c
    simp [deleteConversation, List.mem_filter, bne_iff_ne]
  · simp only [deleteConversation]
    exact List.filter_sublist s.conversations
  · simp [deleteConversation]
  · simp [deleteConversation]

/-- C9: fetching a conversation's messages maps the timestamp
normalisation over the wire list; an absent wire timestamp becomes the
current instant, a present (non-empty) one is parsed, and every other
field of each message is preserved unchanged. -/
theorem c9_getConversation_normalizes (tick : Nat) (raw : List WireChatMessage) :
    getConversation tick (FetchResult.success (some raw)) =
      Except.ok (raw.map (normalizeMessage tick)) ∧
    (∀ m : WireChatMessage, m.timestamp = none →
      (normalizeMessage tick m).timestamp = Date.now tick) ∧
    (∀ (m : WireChatMessage) (ts : String), m.timestamp = some ts → ts ≠ "" →
      (normalizeMessage tick m).timestamp = Date.ofString ts) ∧
    (∀ m : WireChatMessage,
      (normalizeMessage tick m).id = m.id ∧
      (normalizeMessage tick m).content = m.content ∧
      (normalizeMessage tick m).sender = m.sender ∧
      (normalizeMessage tick m).category = m.category ∧
      (normalizeMessage tick m).metadata = m.metadata) := by
  refine ⟨rfl, ?_, ?_, ?_⟩
  · intro m hm
    simp [normalizeMessage, hm]
  · intro m ts hm hts
    simp [normalizeMessage, hm, hts]
  · intro m
    simp [normalizeMessage]

theorem c9_witness :
    (normalizeMessage 7 ⟨"m1", "hi", "user", none, none, none⟩).timestamp = Date.now 7 ∧
    (normalizeMessage 7 ⟨"m2", "yo", "ai", some "2024-01-01", none, none⟩).timestamp =
      Date.ofString "2024-01-01" :=
  ⟨(c9_getConversation_normalizes 7 []).2.1 ⟨"m1", "hi", "user", none, none, none⟩ rfl,
   (c9_getConversation_normalizes 7 []).2.2.1 ⟨"m2", "yo", "ai", some "2024-01-01", none, none⟩
     "2024-01-01" rfl (by decide)⟩

/-- C10: when the code-block regex matches with no language tag on the
opening fence, the extracted context's language field is the fixed
default javascript. -/
theorem c10_untagged_fence_defaults_javascript (msg category : String)
    (snippet : List Char) (h : findCodeMatch msg.data = some (none, snippet)) :
    (extractContext msg category).bind Context.language = some "javascript" := by
  simp [extractContext, h]

theorem c10_witness :
    findCodeMatch "```\nx=1\n```".data = some (none, "x=1\n".data) ∧
    (extractContext "```\nx=1\n```" "general").bind Context.language = some "javascript" :=
  ⟨by decide,
   c10_untagged_fence_defaults_javascript "```\nx=1\n```" "general" "x=1\n".data (by decide)⟩
